import Mathlib

/-!
Verification of the chat/alert backend (main.py, schemas.py).

The HTTP handlers are shallowly embedded as pure Lean functions over an
explicit database state `DB` holding one list of documents per collection.
Document-store calls are translated as follows:
  * find_one(filter)              -> List.find? with the same field filter
  * find(filter).limit(n)         -> List.filter then List.take
  * sort("created_at", dir)       -> List.insertionSort on created_at
  * insert_one(doc)               -> append to the collection list
  * update_one(filter, update)    -> updateFirst on the first matching doc
  * delete_one(filter)            -> List.eraseP (first matching doc)
  * upsert with $setOnInsert      -> insert only when no document matches
Generated ObjectIds and the current wall-clock time are passed explicitly
as parameters (newId, now).  Timestamps are naturals, counters are
integers (member_count may go negative), coordinates are reals.  A bson
ObjectId string argument parses iff it is a 24-character hex string;
a failed parse inside a handler raises HTTP 400 when the handler guards
it with try/except, and an unhandled exception otherwise.
-/

/-- A document identifier is kept as its 24-character hex string form. -/
def isHexChar (c : Char) : Bool :=
  c.isDigit || (('a' ≤ c && c ≤ 'f') || ('A' ≤ c && c ≤ 'F'))

def isValidOIDString (s : String) : Bool :=
  s.length == 24 && s.toList.all isHexChar

/-- bson.ObjectId(s): succeeds exactly on 24-char hex strings; the resulting
identifier compares case-insensitively, modelled by lowercasing. -/
def parseOID (s : String) : Option String :=
  if isValidOIDString s then some (String.mk (s.toList.map Char.toLower)) else none

/-- Python str.lower (ASCII fragment, matching the keyword lists used). -/
def pyLower (s : String) : String :=
  String.mk (s.toList.map Char.toLower)

/-- Python int() applied to a nonnegative real: truncation toward zero. -/
noncomputable def truncInt (x : ℝ) : ℤ :=
  if 0 ≤ x then ⌊x⌋ else -⌊-x⌋

/-- update_one: rewrite the first document matching the filter, if any. -/
def updateFirst (p : α → Bool) (f : α → α) : List α → List α
  | [] => []
  | a :: t => if p a then f a :: t else a :: updateFirst p f t

-- Collections (schemas.py, fields actually read or written by main.py).

structure Persona where
  _id : String
  tenant_id : String
  handle : String
  color : Option String
  bio : Option String
  avatar_letter : String
  trust_level : Int
  score_thanks : Int
  score_helpful : Int
  created_at : Nat
  updated_at : Nat
  is_banned : Bool
deriving DecidableEq, Repr

structure Room where
  _id : String
  tenant_id : String
  name : String
  type : String
  city : Option String
  topic : Option String
  member_count : Int
  created_at : Nat
  updated_at : Nat
deriving DecidableEq, Repr

structure RoomMember where
  tenant_id : String
  room_id : String
  persona_id : String
  joined_at : Nat
deriving DecidableEq, Repr

structure Message where
  tenant_id : String
  room_id : String
  persona_id : String
  content : String
  created_at : Nat
  updated_at : Nat
  deleted : Bool
deriving DecidableEq, Repr

structure Alert where
  _id : String
  tenant_id : String
  persona_id : String
  type : String
  text : String
  radius_m : Int
  lat : Option ℝ
  lng : Option ℝ
  status : String
  created_at : Nat
  updated_at : Nat

structure DB where
  persona : List Persona
  room : List Room
  roommember : List RoomMember
  message : List Message
  alert : List Alert

inductive Err where
  | http (code : Nat) (msg : String)
  | unhandled (msg : String)
deriving DecidableEq, Repr

deriving instance DecidableEq for Except

def TENANT_DEFAULT : String := "default"

-- ensure_global_room (main.py lines 43-58)

def GLOBAL_FILTER (r : Room) : Bool :=
  r.tenant_id == TENANT_DEFAULT && r.type == "global" && r.name == "Global"

/-- The document inserted by ensure_global_room when no Global room exists. -/
def gRoom (now : Nat) (newId : String) : Room :=
  { _id := newId, tenant_id := TENANT_DEFAULT, name := "Global", type := "global",
    city := none, topic := none, member_count := 0, created_at := now, updated_at := now }

def ensureGlobalRoom (now : Nat) (newId : String) (db : DB) : DB :=
  match db.room.find? GLOBAL_FILTER with
  | some _ => db
  | none => { db with room := db.room ++ [gRoom now newId] }

-- create_persona (main.py lines 92-115)

def createPersona (now : Nat) (newId : String) (db : DB)
    (tenant_id handle : String) (color bio avatar_letter : Option String) :
    Except Err Persona × DB :=
  match db.persona.find? (fun p => p.tenant_id == tenant_id && p.handle == handle) with
  | some _ => (Except.error (Err.http 400 "Handle already taken"), db)
  | none =>
    let fallbackLetter := if handle.isEmpty then "?" else (handle.take 1).toUpper
    let doc : Persona :=
      { _id := newId, tenant_id := tenant_id, handle := handle,
        color := color, bio := bio,
        avatar_letter :=
          match avatar_letter with
          | some s => if s.isEmpty then fallbackLetter else s
          | none => fallbackLetter,
        trust_level := 1, score_thanks := 0, score_helpful := 0,
        created_at := now, updated_at := now, is_banned := false }
    (Except.ok doc, { db with persona := db.persona ++ [doc] })

-- join_room (main.py lines 152-173)

def joinRoom (now : Nat) (db : DB) (tenant_id room_id persona_id : String) :
    Except Err Unit × DB :=
  match parseOID room_id, parseOID persona_id with
  | some rid, some pid =>
    match db.room.find? (fun r => r._id == rid && r.tenant_id == tenant_id) with
    | none => (Except.error (Err.http 404 "Room not found"), db)
    | some _ =>
      match db.persona.find? (fun p => p._id == pid && p.tenant_id == tenant_id) with
      | none => (Except.error (Err.http 404 "Persona not found"), db)
      | some _ =>
        let db1 :=
          if (db.roommember.find? (fun m =>
                m.tenant_id == tenant_id && m.room_id == room_id &&
                m.persona_id == persona_id)).isSome
          then db
          else { db with roommember := db.roommember ++
                  [{ tenant_id := tenant_id, room_id := room_id,
                     persona_id := persona_id, joined_at := now }] }
        let bump : Room → Room :=
          fun r => { r with member_count := r.member_count + 1, updated_at := now }
        (Except.ok (), { db1 with room := updateFirst (fun r => r._id == rid) bump db1.room })
  | _, _ => (Except.error (Err.http 400 "Invalid ids"), db)

-- leave_room (main.py lines 175-181): the member delete runs before the
-- room_id string is ever parsed, so a malformed id raises only afterwards.

def leaveRoom (now : Nat) (db : DB) (tenant_id room_id persona_id : String) :
    Except Err Unit × DB :=
  let db1 := { db with roommember := db.roommember.eraseP (fun m =>
      m.tenant_id == tenant_id && m.room_id == room_id && m.persona_id == persona_id) }
  match parseOID room_id with
  | none => (Except.error (Err.unhandled "bson InvalidId"), db1)
  | some rid =>
    let drop : Room → Room :=
      fun r => { r with member_count := r.member_count - 1, updated_at := now }
    (Except.ok (), { db1 with room := updateFirst (fun r => r._id == rid) drop db1.room })

-- list_messages (main.py lines 189-198)

def msgLE (a b : Message) : Prop := a.created_at ≤ b.created_at

instance : DecidableRel msgLE := fun a b => Nat.decLe a.created_at b.created_at

instance : IsTotal Message msgLE := ⟨fun a b => Nat.le_total a.created_at b.created_at⟩

instance : IsTrans Message msgLE := ⟨fun _ _ _ => Nat.le_trans⟩

def listMessages (db : DB) (tenant_id room_id : String) (limit : Nat) :
    Except Err (List Message) :=
  match parseOID room_id with
  | none => Except.error (Err.http 400 "Invalid room id")
  | some _ =>
    Except.ok
      (((db.message.filter (fun m => m.tenant_id == tenant_id && m.room_id == room_id)
          ).insertionSort msgLE).take limit)

-- nearby_alerts (main.py lines 257-277)

noncomputable def radiansOf (x : ℝ) : ℝ := x * Real.pi / 180

noncomputable def haversine (lat1 lon1 lat2 lon2 : ℝ) : ℝ :=
  let R : ℝ := 6371000
  let dlat := radiansOf (lat2 - lat1)
  let dlon := radiansOf (lon2 - lon1)
  let a := Real.sin (dlat / 2) ^ 2 +
    Real.cos (radiansOf lat1) * Real.cos (radiansOf lat2) * Real.sin (dlon / 2) ^ 2
  let c := 2 * Real.arcsin (Real.sqrt a)
  R * c

def alertMoreRecent (a b : Alert) : Prop := b.created_at ≤ a.created_at

instance : DecidableRel alertMoreRecent := fun a b => Nat.decLe b.created_at a.created_at

/-- The scan set of nearby_alerts: alerts of the tenant, most recent first,
capped at 200. -/
def nearbyCandidates (db : DB) (tenant_id : String) : List Alert :=
  ((db.alert.filter (fun a => a.tenant_id == tenant_id)).insertionSort alertMoreRecent).take 200

/-- A missing lat or lng field reads back as 0 (dict.get default). -/
noncomputable def nearbyAlerts (db : DB) (tenant_id : String) (lat lng : ℝ)
    (radius_m : Int) : List (Alert × Int) :=
  (nearbyCandidates db tenant_id).filterMap (fun a =>
    let dist := haversine lat lng (a.lat.getD 0) (a.lng.getD 0)
    if dist ≤ (radius_m : ℝ) then some (a, truncInt dist) else none)

-- moderate (main.py lines 292-295)

def BAD_WORDS : List String := ["hate", "suicide", "spam"]

/-- Python membership test bad in text: substring containment. -/
def strContainsSub (hay sub : String) : Bool :=
  decide (sub.toList <:+: hay.toList)

def moderate (text : String) : Bool :=
  BAD_WORDS.any (fun bad => strContainsSub (pyLower text) bad)

-- Concrete states used by the witnesses and counterexamples below.

def A24 : String := "aaaaaaaaaaaaaaaaaaaaaaaa"

def B24 : String := "bbbbbbbbbbbbbbbbbbbbbbbb"

def C24 : String := "cccccccccccccccccccccccc"

def D24 : String := "dddddddddddddddddddddddd"

def emptyDB : DB :=
  { persona := [], room := [], roommember := [], message := [], alert := [] }

def room0 : Room :=
  { _id := A24, tenant_id := TENANT_DEFAULT, name := "Ikebukuro", type := "city",
    city := some "Tokyo", topic := none, member_count := 7, created_at := 1, updated_at := 1 }

def persona0 : Persona :=
  { _id := B24, tenant_id := TENANT_DEFAULT, handle := "alice", color := some "#7c3aed",
    bio := none, avatar_letter := "A", trust_level := 1, score_thanks := 0,
    score_helpful := 0, created_at := 1, updated_at := 1, is_banned := false }

def member0 : RoomMember :=
  { tenant_id := TENANT_DEFAULT, room_id := A24, persona_id := B24, joined_at := 42 }

def db2 : DB := { emptyDB with persona := [persona0], room := [room0] }

def db7 : DB :=
  { emptyDB with persona := [persona0], room := [room0], roommember := [member0] }

def db5 : DB := { emptyDB with persona := [persona0] }

def msg1 : Message :=
  { tenant_id := TENANT_DEFAULT, room_id := A24, persona_id := B24, content := "later",
    created_at := 10, updated_at := 10, deleted := false }

def msg2 : Message :=
  { tenant_id := TENANT_DEFAULT, room_id := A24, persona_id := B24, content := "earlier",
    created_at := 5, updated_at := 5, deleted := false }

def db6 : DB := { emptyDB with message := [msg1, msg2] }

def memberBad : RoomMember :=
  { tenant_id := TENANT_DEFAULT, room_id := "bad", persona_id := "p1", joined_at := 7 }

def db9 : DB := { emptyDB with roommember := [memberBad] }

def roomOther : Room :=
  { _id := A24, tenant_id := "other", name := "Shinjuku", type := "city",
    city := none, topic := none, member_count := 5, created_at := 1, updated_at := 1 }

def db1x : DB := { emptyDB with room := [roomOther] }

def personaOther : Persona :=
  { persona0 with _id := C24, tenant_id := "other", handle := "bob" }

def db4 : DB := { emptyDB with persona := [personaOther] }

def alert0 : Alert :=
  { _id := C24, tenant_id := TENANT_DEFAULT, persona_id := B24, type := "Help",
    text := "need help", radius_m := 100, lat := some 0, lng := some 0,
    status := "Active", created_at := 3, updated_at := 3 }

def db3 : DB := { emptyDB with alert := [alert0] }

def alertN : Alert := { alert0 with _id := D24, lat := none, lng := none }

def db10 : DB := { emptyDB with alert := [alertN] }

-- Helper lemmas on the storage operations.

theorem updateFirst_map_cancel {α : Type*} {β : Type*} (p : α → Bool) (f g : α → α)
    (proj : α → β) (hp : ∀ x, p (f x) = p x) (hfg : ∀ x, proj (g (f x)) = proj x)
    (l : List α) :
    (updateFirst p g (updateFirst p f l)).map proj = l.map proj := by
  induction l with
  | nil => rfl
  | cons a t ih =>
    cases hpa : p a with
    | false => simp [updateFirst, hpa, ih]
    | true => simp [updateFirst, hpa, hp a, hfg a]

theorem find?_updateFirst {α : Type*} (p : α → Bool) (f : α → α)
    (hp : ∀ x, p (f x) = p x) (l : List α) :
    (updateFirst p f l).find? p = (l.find? p).map f := by
  induction l with
  | nil => rfl
  | cons a t ih =>
    cases hpa : p a with
    | false =>
      have h1 : updateFirst p f (a :: t) = a :: updateFirst p f t := by
        simp [updateFirst, hpa]
      rw [h1, List.find?_cons_of_neg _ (by simp [hpa]),
        List.find?_cons_of_neg _ (by simp [hpa]), ih]
    | true =>
      have h1 : updateFirst p f (a :: t) = f a :: t := by simp [updateFirst, hpa]
      rw [h1, List.find?_cons_of_pos _ (by rw [hp a, hpa]),
        List.find?_cons_of_pos _ hpa]
      rfl

theorem filter_updateFirst {α : Type*} (p q : α → Bool) (f : α → α) (l : List α)
    (h : ∀ x ∈ l, p x = true → q x = false ∧ q (f x) = false) :
    (updateFirst p f l).filter q = l.filter q := by
  induction l with
  | nil => rfl
  | cons a t ih =>
    cases hpa : p a with
    | false =>
      have h1 : updateFirst p f (a :: t) = a :: updateFirst p f t := by
        simp [updateFirst, hpa]
      rw [h1, List.filter_cons, List.filter_cons,
        ih (fun x hx hpx => h x (List.mem_cons_of_mem a hx) hpx)]
    | true =>
      have h1 : updateFirst p f (a :: t) = f a :: t := by simp [updateFirst, hpa]
      have hq := h a (List.mem_cons_self a t) hpa
      rw [h1, List.filter_cons, List.filter_cons, hq.1, hq.2]
      simp

theorem filter_eraseP {α : Type*} (p q : α → Bool) (l : List α)
    (h : ∀ x ∈ l, p x = true → q x = false) :
    (l.eraseP p).filter q = l.filter q := by
  induction l with
  | nil => rfl
  | cons a t ih =>
    cases hpa : p a with
    | true =>
      rw [List.eraseP_cons_of_pos hpa, List.filter_cons,
        h a (List.mem_cons_self a t) hpa]
      simp
    | false =>
      rw [List.eraseP_cons_of_neg (by simp [hpa]), List.filter_cons, List.filter_cons,
        ih (fun x hx hpx => h x (List.mem_cons_of_mem a hx) hpx)]

theorem haversine_self (lat lng : ℝ) : haversine lat lng lat lng = 0 := by
  simp [haversine, radiansOf, Real.sqrt_zero, Real.arcsin_zero]

theorem truncInt_zero : truncInt 0 = 0 := by
  simp [truncInt]

/-- C8: moderate flags exactly the texts whose lowercasing contains one of
the keywords hate, suicide, spam as a substring; in particular
moderate "this is SPAM" is flagged and moderate "hello" is not. -/
theorem moderate_keyword_substring :
    moderate "this is SPAM" = true ∧ moderate "hello" = false ∧
    ∀ t : String, moderate t = true ↔
      ("hate".toList <:+: (pyLower t).toList ∨
        "suicide".toList <:+: (pyLower t).toList ∨
        "spam".toList <:+: (pyLower t).toList) := by
  refine ⟨by decide, by decide, fun t => ?_⟩
  simp [moderate, BAD_WORDS, strContainsSub, List.any_cons, List.any_nil,
    Bool.or_eq_true, decide_eq_true_eq]

/-- C9: leave_room with a malformed room_id deletes the matching RoomMember
record first, then fails with an unhandled bson error (not the guarded
HTTP 400), and never touches any member_count of the room collection. -/
theorem leave_malformed_id_not_atomic (now : Nat) (db : DB) (t rid pid : String)
    (h : parseOID rid = none) :
    (leaveRoom now db t rid pid).1 = Except.error (Err.unhandled "bson InvalidId") ∧
    (leaveRoom now db t rid pid).1 ≠ Except.error (Err.http 400 "Invalid ids") ∧
    (leaveRoom now db t rid pid).2.roommember
      = db.roommember.eraseP (fun m =>
          m.tenant_id == t && m.room_id == rid && m.persona_id == pid) ∧
    (leaveRoom now db t rid pid).2.room = db.room := by
  refine ⟨?_, ?_, ?_, ?_⟩ <;> simp [leaveRoom, h]

theorem leave_malformed_id_not_atomic_witness :
    parseOID "bad" = none ∧
    ((leaveRoom 3 db9 TENANT_DEFAULT "bad" "p1").1
        = Except.error (Err.unhandled "bson InvalidId") ∧
      (leaveRoom 3 db9 TENANT_DEFAULT "bad" "p1").1
        ≠ Except.error (Err.http 400 "Invalid ids") ∧
      (leaveRoom 3 db9 TENANT_DEFAULT "bad" "p1").2.roommember
        = db9.roommember.eraseP (fun m =>
            m.tenant_id == TENANT_DEFAULT && m.room_id == "bad" && m.persona_id == "p1") ∧
      (leaveRoom 3 db9 TENANT_DEFAULT "bad" "p1").2.room = db9.room) ∧
    (leaveRoom 3 db9 TENANT_DEFAULT "bad" "p1").2.roommember = [] :=
  ⟨by decide, leave_malformed_id_not_atomic 3 db9 TENANT_DEFAULT "bad" "p1" (by decide),
    by decide⟩

/-- C6: for a well-formed room_id, list_messages returns the messages of the
room sorted by non-decreasing created_at and returns at most limit items;
for a malformed room_id it fails with HTTP 400 Invalid room id. -/
theorem list_messages_sorted_and_limited (db : DB) (t rid : String) (limit : Nat) :
    (∀ o, parseOID rid = some o →
      ∃ l, listMessages db t rid limit = Except.ok l ∧
        List.Sorted msgLE l ∧ l.length ≤ limit) ∧
    (parseOID rid = none →
      listMessages db t rid limit = Except.error (Err.http 400 "Invalid room id")) := by
  constructor
  · intro o ho
    refine ⟨((db.message.filter (fun m => m.tenant_id == t && m.room_id == rid)
        ).insertionSort msgLE).take limit, ?_, ?_, ?_⟩
    · simp [listMessages, ho]
    · exact List.Pairwise.sublist (List.take_sublist _ _)
        (List.sorted_insertionSort msgLE _)
    · exact List.length_take_le _ _
  · intro ho
    simp [listMessages, ho]

theorem list_messages_sorted_and_limited_witness :
    parseOID A24 = some A24 ∧
    (∃ l, listMessages db6 TENANT_DEFAULT A24 1 = Except.ok l ∧
      List.Sorted msgLE l ∧ l.length ≤ 1) ∧
    listMessages db6 TENANT_DEFAULT "bad" 1
      = Except.error (Err.http 400 "Invalid room id") :=
  ⟨by decide,
    (list_messages_sorted_and_limited db6 TENANT_DEFAULT A24 1).1 A24 (by decide),
    (list_messages_sorted_and_limited db6 TENANT_DEFAULT "bad" 1).2 (by decide)⟩

/-- C5: create_persona with a handle that already exists in the tenant fails
with HTTP 400 Handle already taken and changes nothing; with a handle free in
the requested tenant (in particular, the same handle under another tenant) it
succeeds and appends exactly the new document. -/
theorem create_persona_duplicate_handle (now : Nat) (newId : String) (db : DB)
    (t1 t2 hdl : String) (color bio avatar_letter : Option String) :
    ((∃ p ∈ db.persona, p.tenant_id = t1 ∧ p.handle = hdl) →
      createPersona now newId db t1 hdl color bio avatar_letter
        = (Except.error (Err.http 400 "Handle already taken"), db)) ∧
    ((∀ p ∈ db.persona, ¬(p.tenant_id = t2 ∧ p.handle = hdl)) →
      ∃ doc, (createPersona now newId db t2 hdl color bio avatar_letter).1
          = Except.ok doc ∧
        doc.tenant_id = t2 ∧ doc.handle = hdl ∧
        (createPersona now newId db t2 hdl color bio avatar_letter).2.persona
          = db.persona ++ [doc]) := by
  constructor
  · rintro ⟨p, hp, ht, hh⟩
    rcases hfind : db.persona.find? (fun q => q.tenant_id == t1 && q.handle == hdl)
      with _ | q
    · rw [List.find?_eq_none] at hfind
      exact absurd (by simp [ht, hh]) (hfind p hp)
    · simp [createPersona, hfind]
  · intro hnone
    have hfind : db.persona.find? (fun q => q.tenant_id == t2 && q.handle == hdl)
        = none := by
      rw [List.find?_eq_none]
      intro x hx
      simp only [Bool.and_eq_true, beq_iff_eq, not_and]
      intro h1 h2
      exact hnone x hx ⟨h1, h2⟩
    simp only [createPersona, hfind]
    exact ⟨_, rfl, rfl, rfl, rfl⟩

theorem create_persona_duplicate_handle_witness :
    (∃ p ∈ db5.persona, p.tenant_id = TENANT_DEFAULT ∧ p.handle = "alice") ∧
    createPersona 9 C24 db5 TENANT_DEFAULT "alice" none none none
      = (Except.error (Err.http 400 "Handle already taken"), db5) ∧
    (∀ p ∈ db5.persona, ¬(p.tenant_id = "other" ∧ p.handle = "alice")) ∧
    (∃ doc, (createPersona 9 C24 db5 "other" "alice" none none none).1
        = Except.ok doc ∧
      doc.tenant_id = "other" ∧ doc.handle = "alice" ∧
      (createPersona 9 C24 db5 "other" "alice" none none none).2.persona
        = db5.persona ++ [doc]) :=
  ⟨by decide,
    (create_persona_duplicate_handle 9 C24 db5 TENANT_DEFAULT "other" "alice"
        none none none).1 (by decide),
    by decide,
    (create_persona_duplicate_handle 9 C24 db5 TENANT_DEFAULT "other" "alice"
        none none none).2 (by decide)⟩

/-- C2: when join succeeds, an immediately following leave with the same ids
restores every member_count in the room collection, in particular the
member_count of the joined room, to its pre-join value. -/
theorem join_then_leave_restores_member_count (now1 now2 : Nat) (db : DB)
    (t rid pid : String)
    (hj : (joinRoom now1 db t rid pid).1 = Except.ok ()) :
    ((leaveRoom now2 (joinRoom now1 db t rid pid).2 t rid pid).2.room.map
        Room.member_count)
      = db.room.map Room.member_count := by
  rcases ho : parseOID rid with _ | o
  · simp [joinRoom, ho] at hj
  rcases hp : parseOID pid with _ | p
  · simp [joinRoom, ho, hp] at hj
  rcases hroom : db.room.find? (fun r => r._id == o && r.tenant_id == t) with _ | r0
  · simp [joinRoom, ho, hp, hroom] at hj
  rcases hpers : db.persona.find? (fun q => q._id == p && q.tenant_id == t) with _ | p0
  · simp [joinRoom, ho, hp, hroom, hpers] at hj
  have hrm : (joinRoom now1 db t rid pid).2.room
      = updateFirst (fun r => r._id == o)
          (fun r => { r with member_count := r.member_count + 1, updated_at := now1 })
          db.room := by
    simp [joinRoom, ho, hp, hroom, hpers, apply_ite DB.room]
  have hleave : (leaveRoom now2 (joinRoom now1 db t rid pid).2 t rid pid).2.room
      = updateFirst (fun r => r._id == o)
          (fun r => { r with member_count := r.member_count - 1, updated_at := now2 })
          ((joinRoom now1 db t rid pid).2.room) := by
    simp [leaveRoom, ho]
  rw [hleave, hrm]
  exact updateFirst_map_cancel (fun r => r._id == o)
    (fun r => { r with member_count := r.member_count + 1, updated_at := now1 })
    (fun r => { r with member_count := r.member_count - 1, updated_at := now2 })
    Room.member_count (fun x => rfl)
    (fun x => show x.member_count + 1 - 1 = x.member_count by omega) db.room

theorem join_then_leave_restores_member_count_witness :
    (joinRoom 5 db2 TENANT_DEFAULT A24 B24).1 = Except.ok () ∧
    ((leaveRoom 6 (joinRoom 5 db2 TENANT_DEFAULT A24 B24).2 TENANT_DEFAULT A24 B24
        ).2.room.map Room.member_count)
      = db2.room.map Room.member_count :=
  ⟨by decide,
    join_then_leave_restores_member_count 5 6 db2 TENANT_DEFAULT A24 B24 (by decide)⟩

/-- C7: joining a room when the membership record already exists leaves the
roommember collection untouched (so joined_at is preserved), yet still
increments the member_count of the first room with the parsed id by 1 and
sets its updated_at to the request time. -/
theorem join_existing_membership_increments (now : Nat) (db : DB)
    (t rid pid o : String) (m : RoomMember) (ho : parseOID rid = some o)
    (hm : m ∈ db.roommember) (hmt : m.tenant_id = t) (hmr : m.room_id = rid)
    (hmp : m.persona_id = pid)
    (hj : (joinRoom now db t rid pid).1 = Except.ok ()) :
    (joinRoom now db t rid pid).2.roommember = db.roommember ∧
    ((joinRoom now db t rid pid).2.room.find? (fun r => r._id == o)).map
        Room.member_count
      = (db.room.find? (fun r => r._id == o)).map (fun r => r.member_count + 1) ∧
    ((joinRoom now db t rid pid).2.room.find? (fun r => r._id == o)).map
        Room.updated_at
      = (db.room.find? (fun r => r._id == o)).map (fun _ => now) := by
  rcases hp : parseOID pid with _ | p
  · simp [joinRoom, ho, hp] at hj
  rcases hroom : db.room.find? (fun r => r._id == o && r.tenant_id == t) with _ | r0
  · simp [joinRoom, ho, hp, hroom] at hj
  rcases hpers : db.persona.find? (fun q => q._id == p && q.tenant_id == t) with _ | p0
  · simp [joinRoom, ho, hp, hroom, hpers] at hj
  have hmemfind : (db.roommember.find? (fun x =>
      x.tenant_id == t && x.room_id == rid && x.persona_id == pid)).isSome = true := by
    rcases hfind : db.roommember.find? (fun x =>
        x.tenant_id == t && x.room_id == rid && x.persona_id == pid) with _ | x
    · rw [List.find?_eq_none] at hfind
      exact absurd (by simp [hmt, hmr, hmp]) (hfind m hm)
    · rw [hfind]
      rfl
  have hroomEq : (joinRoom now db t rid pid).2.room
      = updateFirst (fun r => r._id == o)
          (fun r => { r with member_count := r.member_count + 1, updated_at := now })
          db.room := by
    simp [joinRoom, ho, hp, hroom, hpers, hmemfind]
  have hmemEq : (joinRoom now db t rid pid).2.roommember = db.roommember := by
    simp [joinRoom, ho, hp, hroom, hpers, hmemfind]
  refine ⟨hmemEq, ?_, ?_⟩
  · rw [hroomEq, find?_updateFirst (fun r => r._id == o)
        (fun r => { r with member_count := r.member_count + 1, updated_at := now })
        (fun x => rfl) db.room]
    cases hf : db.room.find? (fun r => r._id == o) <;> simp_all
  · rw [hroomEq, find?_updateFirst (fun r => r._id == o)
        (fun r => { r with member_count := r.member_count + 1, updated_at := now })
        (fun x => rfl) db.room]
    cases hf : db.room.find? (fun r => r._id == o) <;> simp_all

theorem join_existing_membership_increments_witness :
    parseOID A24 = some A24 ∧ member0 ∈ db7.roommember ∧
    (joinRoom 5 db7 TENANT_DEFAULT A24 B24).1 = Except.ok () ∧
    ((joinRoom 5 db7 TENANT_DEFAULT A24 B24).2.roommember = db7.roommember ∧
      ((joinRoom 5 db7 TENANT_DEFAULT A24 B24).2.room.find?
          (fun r => r._id == A24)).map Room.member_count
        = (db7.room.find? (fun r => r._id == A24)).map (fun r => r.member_count + 1) ∧
      ((joinRoom 5 db7 TENANT_DEFAULT A24 B24).2.room.find?
          (fun r => r._id == A24)).map Room.updated_at
        = (db7.room.find? (fun r => r._id == A24)).map (fun _ => 5)) :=
  ⟨by decide, by decide, by decide,
    join_existing_membership_increments 5 db7 TENANT_DEFAULT A24 B24 A24 member0
      (by decide) (by decide) rfl rfl rfl (by decide)⟩

/-- C3: nearby never returns an alert whose haversine distance (Earth radius
6371000 m) from the query point exceeds radius_m; and with radius 0 and a
scanned alert whose stored coordinates equal the query point exactly, that
alert is returned with distance_m = 0. -/
theorem nearby_within_radius_and_exact_point (db : DB) (t : String) (lat lng : ℝ)
    (radius_m : Int) :
    (∀ a d la lo, (a, d) ∈ nearbyAlerts db t lat lng radius_m →
      a.lat = some la → a.lng = some lo →
      haversine lat lng la lo ≤ (radius_m : ℝ)) ∧
    (∀ a, a ∈ nearbyCandidates db t → a.lat = some lat → a.lng = some lng →
      (a, 0) ∈ nearbyAlerts db t lat lng 0) := by
  constructor
  · intro a d la lo hmem hla hlo
    rcases List.mem_filterMap.mp hmem with ⟨b, hb, hfb⟩
    simp only [nearbyAlerts] at hfb
    split_ifs at hfb with hle
    · rcases Option.some.inj hfb with hpair
      rcases Prod.mk.injEq .. ▸ hpair with ⟨hba, hdd⟩
      rw [← hba] at hla hlo
      rw [hla, hlo] at hle
      simpa using hle
  · intro a ha hla hlo
    apply List.mem_filterMap.mpr
    refine ⟨a, ha, ?_⟩
    have h0 : haversine lat lng (a.lat.getD 0) (a.lng.getD 0) = 0 := by
      rw [hla, hlo]
      simpa using haversine_self lat lng
    simp [h0, truncInt_zero]

theorem nearby_within_radius_and_exact_point_witness :
    alert0 ∈ nearbyCandidates db3 TENANT_DEFAULT ∧ alert0.lat = some 0 ∧
    (alert0, 0) ∈ nearbyAlerts db3 TENANT_DEFAULT 0 0 0 := by
  have hmem : alert0 ∈ nearbyCandidates db3 TENANT_DEFAULT := by
    simp [nearbyCandidates, db3, emptyDB, alert0, List.insertionSort]
  exact ⟨hmem, rfl,
    (nearby_within_radius_and_exact_point db3 TENANT_DEFAULT 0 0 0).2 alert0 hmem rfl rfl⟩

/-- C10: an alert in the scanned set whose stored lat and lng fields are
absent is treated as sitting at latitude 0 / longitude 0, and is included
whenever the haversine distance from the query point to (0, 0) is within
radius_m, carrying that distance as distance_m. -/
theorem nearby_missing_coords_default_origin (db : DB) (t : String) (lat lng : ℝ)
    (radius_m : Int) (a : Alert) (hmem : a ∈ nearbyCandidates db t)
    (hla : a.lat = none) (hlo : a.lng = none)
    (hdist : haversine lat lng 0 0 ≤ (radius_m : ℝ)) :
    (a, truncInt (haversine lat lng 0 0)) ∈ nearbyAlerts db t lat lng radius_m := by
  apply List.mem_filterMap.mpr
  exact ⟨a, hmem, by simp [hla, hlo, hdist]⟩

theorem nearby_missing_coords_default_origin_witness :
    alertN ∈ nearbyCandidates db10 TENANT_DEFAULT ∧ alertN.lat = none ∧
    (alertN, 0) ∈ nearbyAlerts db10 TENANT_DEFAULT 0 0 0 := by
  have hmem : alertN ∈ nearbyCandidates db10 TENANT_DEFAULT := by
    simp [nearbyCandidates, db10, emptyDB, alertN, alert0, List.insertionSort]
  have h := nearby_missing_coords_default_origin db10 TENANT_DEFAULT 0 0 0 alertN hmem
    rfl rfl (by simp [haversine_self])
  refine ⟨hmem, rfl, ?_⟩
  have h0 : truncInt (haversine 0 0 0 0) = 0 := by rw [haversine_self]; exact truncInt_zero
  rwa [h0] at h

/-- C1 (countermodel): the as-stated tenant-isolation claim is false.
leave_room updates the room matched by _id alone, with no tenant filter and
no prior tenant-scoped lookup, so a request under the default tenant
decrements the member_count of another tenant's room. -/
theorem leave_room_cross_tenant_write :
    (leaveRoom 3 db1x TENANT_DEFAULT A24 B24).2.room.filter
        (fun r => r.tenant_id == "other")
      ≠ db1x.room.filter (fun r => r.tenant_id == "other") := by
  decide

/-- C1 (amended): among the membership handlers, join_room touches only
documents of the request tenant (its room update matches by _id, but only
after a tenant-scoped lookup, so with unique room ids the updated room
belongs to the tenant), and leave_room's RoomMember delete is tenant-scoped;
only leave_room's member_count update may cross tenants. -/
theorem tenant_isolation_join_leave (now : Nat) (db : DB) (t t' rid pid : String)
    (hne : t' ≠ t) (hnodup : (db.room.map Room._id).Nodup) :
    ((joinRoom now db t rid pid).2.room.filter (fun r => r.tenant_id == t')
      = db.room.filter (fun r => r.tenant_id == t')) ∧
    ((joinRoom now db t rid pid).2.roommember.filter (fun m => m.tenant_id == t')
      = db.roommember.filter (fun m => m.tenant_id == t')) ∧
    ((leaveRoom now db t rid pid).2.roommember.filter (fun m => m.tenant_id == t')
      = db.roommember.filter (fun m => m.tenant_id == t')) := by
  refine ⟨?_, ?_, ?_⟩
  · rcases ho : parseOID rid with _ | o
    · simp [joinRoom, ho]
    rcases hp : parseOID pid with _ | p
    · simp [joinRoom, ho, hp]
    rcases hroom : db.room.find? (fun r => r._id == o && r.tenant_id == t) with _ | r0
    · simp [joinRoom, ho, hp, hroom]
    rcases hpers : db.persona.find? (fun q => q._id == p && q.tenant_id == t) with _ | p0
    · simp [joinRoom, ho, hp, hroom, hpers]
    have hrm : (joinRoom now db t rid pid).2.room
        = updateFirst (fun r => r._id == o)
            (fun r => { r with member_count := r.member_count + 1, updated_at := now })
            db.room := by
      simp [joinRoom, ho, hp, hroom, hpers, apply_ite DB.room]
    rw [hrm]
    apply filter_updateFirst
    intro x hx hpx
    have hr0mem := List.mem_of_find?_eq_some hroom
    have hr0p := List.find?_some hroom
    rw [Bool.and_eq_true, beq_iff_eq, beq_iff_eq] at hr0p
    rw [beq_iff_eq] at hpx
    have hxid : x._id = r0._id := by rw [hpx, hr0p.1]
    have hxeq : x = r0 := List.inj_on_of_nodup_map hnodup hx hr0mem hxid
    have hxt : x.tenant_id = t := by rw [hxeq, hr0p.2]
    have hneq : (x.tenant_id == t') = false := by
      rw [hxt]
      exact beq_eq_false_iff_ne.mpr (fun hcon => hne hcon.symm)
    exact ⟨hneq, hneq⟩
  · rcases ho : parseOID rid with _ | o
    · simp [joinRoom, ho]
    rcases hp : parseOID pid with _ | p
    · simp [joinRoom, ho, hp]
    rcases hroom : db.room.find? (fun r => r._id == o && r.tenant_id == t) with _ | r0
    · simp [joinRoom, ho, hp, hroom]
    rcases hpers : db.persona.find? (fun q => q._id == p && q.tenant_id == t) with _ | p0
    · simp [joinRoom, ho, hp, hroom, hpers]
    by_cases hmemb : (db.roommember.find? (fun m =>
        m.tenant_id == t && m.room_id == rid && m.persona_id == pid)).isSome = true
    · have hmm : (joinRoom now db t rid pid).2.roommember = db.roommember := by
        simp [joinRoom, ho, hp, hroom, hpers, hmemb]
      rw [hmm]
    · rw [Bool.not_eq_true] at hmemb
      have hmm : (joinRoom now db t rid pid).2.roommember
          = db.roommember ++
            [{ tenant_id := t, room_id := rid, persona_id := pid, joined_at := now }] := by
        simp [joinRoom, ho, hp, hroom, hpers, hmemb]
      rw [hmm, List.filter_append]
      have htt : (t == t') = false :=
        beq_eq_false_iff_ne.mpr (fun hcon => hne hcon.symm)
      simp [List.filter_cons, htt]
  · have hmm : (leaveRoom now db t rid pid).2.roommember
        = db.roommember.eraseP (fun m =>
            m.tenant_id == t && m.room_id == rid && m.persona_id == pid) := by
      rcases ho : parseOID rid with _ | o <;> simp [leaveRoom, ho]
    rw [hmm]
    apply filter_eraseP
    intro x hx hpx
    rw [Bool.and_eq_true, Bool.and_eq_true, beq_iff_eq] at hpx
    rw [hpx.1.1]
    exact beq_eq_false_iff_ne.mpr (fun hcon => hne hcon.symm)

theorem tenant_isolation_join_leave_witness :
    ("other" ≠ TENANT_DEFAULT) ∧ (db2.room.map Room._id).Nodup ∧
    (((joinRoom 5 db2 TENANT_DEFAULT A24 B24).2.room.filter
          (fun r => r.tenant_id == "other")
        = db2.room.filter (fun r => r.tenant_id == "other")) ∧
      ((joinRoom 5 db2 TENANT_DEFAULT A24 B24).2.roommember.filter
          (fun m => m.tenant_id == "other")
        = db2.roommember.filter (fun m => m.tenant_id == "other")) ∧
      ((leaveRoom 5 db2 TENANT_DEFAULT A24 B24).2.roommember.filter
          (fun m => m.tenant_id == "other")
        = db2.roommember.filter (fun m => m.tenant_id == "other"))) :=
  ⟨by decide, by decide,
    tenant_isolation_join_leave 5 db2 TENANT_DEFAULT "other" A24 B24
      (by decide) (by decide)⟩

/-- C4 (countermodel): the as-stated claim is false. The startup bootstrap
only serves the default tenant: run twice on a state that has another
tenant (a persona with tenant_id other), it still leaves that tenant with
zero Global rooms, not exactly one. -/
theorem bootstrap_not_per_tenant :
    ((ensureGlobalRoom 2 C24 (ensureGlobalRoom 1 D24 db4)).room.countP
        (fun r => r.tenant_id == "other" && r.type == "global" && r.name == "Global"))
      ≠ 1 := by
  decide

/-- C4 (amended): running the bootstrap twice changes nothing over running
it once; starting with no Global room in the default tenant it leaves
exactly one room with type global and name Global in the default tenant;
and it never creates or modifies rooms of any other tenant. -/
theorem bootstrap_idempotent_default_tenant (now1 now2 : Nat) (id1 id2 : String)
    (db : DB) (t' : String) :
    ensureGlobalRoom now2 id2 (ensureGlobalRoom now1 id1 db)
      = ensureGlobalRoom now1 id1 db ∧
    (db.room.countP GLOBAL_FILTER = 0 →
      (ensureGlobalRoom now2 id2 (ensureGlobalRoom now1 id1 db)).room.countP
          GLOBAL_FILTER = 1) ∧
    (t' ≠ TENANT_DEFAULT →
      (ensureGlobalRoom now1 id1 db).room.filter (fun r => r.tenant_id == t')
        = db.room.filter (fun r => r.tenant_id == t')) := by
  have hg : GLOBAL_FILTER (gRoom now1 id1) = true := rfl
  rcases hfind : db.room.find? GLOBAL_FILTER with _ | g0
  · have h1 : ensureGlobalRoom now1 id1 db
        = { db with room := db.room ++ [gRoom now1 id1] } := by
      simp [ensureGlobalRoom, hfind]
    have hfind2 : (db.room ++ [gRoom now1 id1]).find? GLOBAL_FILTER
        = some (gRoom now1 id1) := by
      rw [List.find?_append, hfind, List.find?_cons_of_pos _ hg]
      rfl
    have h2 : ensureGlobalRoom now2 id2 (ensureGlobalRoom now1 id1 db)
        = ensureGlobalRoom now1 id1 db := by
      rw [h1]
      simp [ensureGlobalRoom, hfind2]
    refine ⟨h2, ?_, ?_⟩
    · intro hzero
      rw [h2, h1]
      simp [List.countP_append, List.countP_cons, hg, hzero]
    · intro ht'
      rw [h1]
      have hno : ((gRoom now1 id1).tenant_id == t') = false :=
        beq_eq_false_iff_ne.mpr (fun hcon => ht' hcon.symm)
      simp [List.filter_append, List.filter_cons, hno]
  · have h1 : ensureGlobalRoom now1 id1 db = db := by
      simp [ensureGlobalRoom, hfind]
    refine ⟨by rw [h1]; simp [ensureGlobalRoom, hfind], ?_, by rw [h1]; intro ht'; rfl⟩
    intro hzero
    have hg0 := List.find?_some hfind
    have hg0mem := List.mem_of_find?_eq_some hfind
    exact absurd hg0 (by simpa using List.countP_eq_zero.mp hzero g0 hg0mem)

theorem bootstrap_idempotent_default_tenant_witness :
    db4.room.countP GLOBAL_FILTER = 0 ∧ ("other" ≠ TENANT_DEFAULT) ∧
    (ensureGlobalRoom 2 C24 (ensureGlobalRoom 1 D24 db4)
        = ensureGlobalRoom 1 D24 db4 ∧
      (ensureGlobalRoom 2 C24 (ensureGlobalRoom 1 D24 db4)).room.countP
          GLOBAL_FILTER = 1 ∧
      (ensureGlobalRoom 1 D24 db4).room.filter (fun r => r.tenant_id == "other")
        = db4.room.filter (fun r => r.tenant_id == "other")) :=
  have h := bootstrap_idempotent_default_tenant 1 2 D24 C24 db4 "other"
  ⟨by decide, by decide, h.1, h.2.1 (by decide), h.2.2 (by decide)⟩
